import Mathlib

/-!
Shallow embedding of the braincast signal-derivation engine.

The repository exposes two near-duplicate serverless handlers that derive a
trading directive from per-timeframe indicator counts and a spot price:

* `src/unnamed/part_001` (the `better-scalp` endpoint called by the React
  client): direction from the leading three timeframes, leverage from the
  trailing three, price fallback 113279 guarded by `!price || price <= 0`;
* `src/unnamed/part_000`: direction from the sum over all seven timeframes,
  leverage from the trailing three, price fallback 119500 guarded by `!price`.

JavaScript numeric arithmetic on these small integer counts and prices is
modelled exactly over `ℚ`; `Math.round` is `⌊x + 1/2⌋` (round half toward
positive infinity, which is what `Math.round` does).
-/

namespace Braincast

/-- `Math.round` on a rational: round half up (toward `+∞`). -/
def jsRound (x : ℚ) : ℤ := ⌊x + 1/2⌋

/-- Trade direction, the two values the engine can return. -/
inductive Direction where
  | LONG
  | SHORT
deriving DecidableEq

/-- One timeframe's indicator tally, as extracted by the regex
`Up: (\d+) Down: (\d+) Neutral: (\d+)`: all three counts are
non-negative integers. -/
structure IndicatorCount where
  timeframe : String
  up : ℕ
  down : ℕ
  neutral : ℕ
deriving DecidableEq

/-- The engine's output record (`signal`, `entryPrice`, `targetPrice`,
`stopPrice`, `leverage`).  `part_001` returns `entryPrice` unrounded, so it
is kept rational here; target and stop are `Math.round`ed integers. -/
structure Directive where
  signal : Direction
  entryPrice : ℚ
  targetPrice : ℤ
  stopPrice : ℤ
  leverage : ℤ
deriving DecidableEq

/-- The canonical timeframe labels, in page order. -/
def timeframes : List String := ["5m", "15m", "1h", "2h", "4h", "6h", "1d"]

/-- `timeframes.map((tf, idx) => rawCounts[idx] ?? [0,0,0])`: build the
7-element summary, padding missing entries with zero triples and silently
ignoring extra ones. -/
def buildSummary (rawCounts : List (ℕ × ℕ × ℕ)) : List IndicatorCount :=
  timeframes.enum.map fun p =>
    match rawCounts.get? p.1 with
    | some (u, d, n) =>
        { timeframe := p.2, up := u, down := d, neutral := n }
    | none => { timeframe := p.2, up := 0, down := 0, neutral := 0 }

/-- JavaScript `array.slice(-3)`: the trailing window of (up to) three
entries. -/
def sliceLast3 (l : List IndicatorCount) : List IndicatorCount :=
  l.drop (l.length - 3)

/-- Sum of the `up` counts over a window. -/
def sumUp (w : List IndicatorCount) : ℕ := (w.map IndicatorCount.up).sum

/-- Sum of the `down` counts over a window. -/
def sumDown (w : List IndicatorCount) : ℕ := (w.map IndicatorCount.down).sum

/-- DirectionResolver over a window, as written in `part_001` lines 46–54:
`lowUp > lowDown → LONG; lowDown > lowUp → SHORT; tie → SHORT`. -/
def resolveDirection (w : List IndicatorCount) : Direction :=
  if sumUp w > sumDown w then Direction.LONG
  else if sumDown w > sumUp w then Direction.SHORT
  else Direction.SHORT

/-- LeverageResolver over a window and a chosen direction, as written in
`part_001` lines 56–71: `aligned/highTotal` when `highTotal > 0` else `0`,
then `Math.max(30, Math.min(50, Math.round(30 + 20*ratio)))`. -/
def resolveLeverage (w : List IndicatorCount) (dir : Direction) : ℤ :=
  let highTotal := sumUp w + sumDown w
  let aligned : ℕ := if dir = Direction.LONG then sumUp w else sumDown w
  let ratio : ℚ := if highTotal > 0 then (aligned : ℚ) / (highTotal : ℚ) else 0
  max 30 (min 50 (jsRound (30 + 20 * ratio)))

/-- PriceLevelCalculator, as written in `part_001` lines 94–104:
target at ±1.7 % in the trade direction, stop at `0.15/leverage` against
it, both `Math.round`ed. -/
def computeLevels (entryPrice : ℚ) (direction : Direction) (leverage : ℤ) :
    ℤ × ℤ :=
  let targetPct : ℚ := 17/1000
  if direction = Direction.LONG then
    (jsRound (entryPrice * (1 + targetPct)),
     jsRound (entryPrice * (1 - (15/100) / (leverage : ℚ))))
  else
    (jsRound (entryPrice * (1 - targetPct)),
     jsRound (entryPrice * (1 + (15/100) / (leverage : ℚ))))

/-- The documented static fallback spot price of `part_001`
(`if (!price || price <= 0) price = 113279`). -/
def fallbackPrice : ℚ := 113279

/-- The `try` block of `part_001` (the `better-scalp` handler), given the
regex rawCounts and the outcome of the CoinGecko fetch (`none` models a
failed or non-ok price request, in which case `price` stays `0`).
Accumulating `forEach` loops become `foldl` over a pair of accumulators. -/
def produce (rawCounts : List (ℕ × ℕ × ℕ)) (fetchedPrice : Option ℚ) :
    Directive :=
  let summary := buildSummary rawCounts
  let lowFrames := summary.take 3
  let low := lowFrames.foldl (fun acc c => (acc.1 + c.up, acc.2 + c.down)) ((0, 0) : ℕ × ℕ)
  let direction :=
    if low.1 > low.2 then Direction.LONG
    else if low.2 > low.1 then Direction.SHORT
    else Direction.SHORT
  let highFrames := sliceLast3 summary
  let high := highFrames.foldl (fun acc c => (acc.1 + c.up, acc.2 + c.down)) ((0, 0) : ℕ × ℕ)
  let highTotal := high.1 + high.2
  let consensusRatio : ℚ :=
    if highTotal > 0 then
      (if direction = Direction.LONG then (high.1 : ℚ) else (high.2 : ℚ)) /
        (highTotal : ℚ)
    else 0
  let leverage : ℤ := max 30 (min 50 (jsRound (30 + 20 * consensusRatio)))
  let price : ℚ := match fetchedPrice with
    | some p => p
    | none => 0
  let price := if price = 0 ∨ price ≤ 0 then fallbackPrice else price
  let entryPrice := price
  let targetPct : ℚ := 17/1000
  let levels :=
    if direction = Direction.LONG then
      (jsRound (entryPrice * (1 + targetPct)),
       jsRound (entryPrice * (1 - (15/100) / (leverage : ℚ))))
    else
      (jsRound (entryPrice * (1 - targetPct)),
       jsRound (entryPrice * (1 + (15/100) / (leverage : ℚ))))
  { signal := direction
    entryPrice := entryPrice
    targetPrice := levels.1
    stopPrice := levels.2
    leverage := leverage }

/-- Documentation of the `catch` clause shared by both handlers: the
entirely static fallback Directive. -/
def fallbackDirective : Directive :=
  { signal := Direction.LONG
    entryPrice := 119500
    targetPrice := 121500
    stopPrice := 119200
    leverage := 30 }

/-- An HTTP response as produced by `res.status(...).json(...)`. -/
structure Response where
  status : ℕ
  body : Directive
deriving DecidableEq

/-- The whole `part_001` handler: the `try` block runs on the fetched
inputs; `none` for the technical-analysis input models any throw before
the summary exists (failed fetch, non-ok status), which lands in the
`catch` clause returning the static fallback with status 200. -/
def handler (taResult : Option (List (ℕ × ℕ × ℕ))) (priceResult : Option ℚ) :
    Response :=
  match taResult with
  | none => { status := 200, body := fallbackDirective }
  | some rawCounts => { status := 200, body := produce rawCounts priceResult }

/-- The entry price `part_001` ends up using: the fetched spot price when
it is present and strictly positive, otherwise `fallbackPrice` (a missing
fetch leaves `price = 0`, caught by `!price || price <= 0`). -/
def resolvedPrice (fetchedPrice : Option ℚ) : ℚ :=
  match fetchedPrice with
  | some p => if 0 < p then p else fallbackPrice
  | none => fallbackPrice

/-- The `try` block of `part_000`: identical pipeline except that the
direction comes from all seven timeframes (`totalUp > totalDown ? LONG :
SHORT`), the price guard is only `!price` with fallback `119500`, the
clamp is written `Math.min(50, Math.max(30, …))`, and the response rounds
`entryPrice`. -/
def produceOverall (rawCounts : List (ℕ × ℕ × ℕ)) (fetchedPrice : Option ℚ) :
    Directive :=
  let summary := buildSummary rawCounts
  let total := summary.foldl (fun acc c => (acc.1 + c.up, acc.2 + c.down))
    ((0, 0) : ℕ × ℕ)
  let direction := if total.1 > total.2 then Direction.LONG else Direction.SHORT
  let higherFrames := sliceLast3 summary
  let higher := higherFrames.foldl
    (fun acc c => (acc.1 + c.up, acc.2.1 + c.down, acc.2.2 + (c.up + c.down)))
    ((0, 0, 0) : ℕ × ℕ × ℕ)
  let consensusRatio : ℚ :=
    if higher.2.2 > 0 then
      (if direction = Direction.LONG then (higher.1 : ℚ) else (higher.2.1 : ℚ)) /
        (higher.2.2 : ℚ)
    else 0
  let leverage : ℤ := min 50 (max 30 (jsRound (30 + 20 * consensusRatio)))
  let price : ℚ := match fetchedPrice with
    | some p => p
    | none => 0
  let price := if price = 0 then 119500 else price
  let entryPrice := price
  let pctMove : ℚ := 17/1000
  let targetPrice :=
    if direction = Direction.LONG then jsRound (entryPrice * (1 + pctMove))
    else jsRound (entryPrice * (1 - pctMove))
  let stopThreshold : ℚ := (15/100) / (leverage : ℚ)
  let stopPrice :=
    if direction = Direction.LONG then jsRound (entryPrice * (1 - stopThreshold))
    else jsRound (entryPrice * (1 + stopThreshold))
  { signal := direction
    entryPrice := (jsRound entryPrice : ℚ)
    targetPrice := targetPrice
    stopPrice := stopPrice
    leverage := leverage }

/-! ### Structural lemmas relating the inlined pipeline to the components -/

lemma foldl_counts (l : List IndicatorCount) (a b : ℕ) :
    l.foldl (fun acc c => (acc.1 + c.up, acc.2 + c.down)) ((a, b) : ℕ × ℕ) =
      (a + sumUp l, b + sumDown l) := by
  induction l generalizing a b with
  | nil => simp [sumUp, sumDown]
  | cons c t ih =>
      simp only [List.foldl_cons, ih, sumUp, sumDown, List.map_cons,
        List.sum_cons, Prod.mk.injEq]
      omega

lemma foldl_counts3 (l : List IndicatorCount) (a b c : ℕ) :
    l.foldl (fun acc c => (acc.1 + c.up, acc.2.1 + c.down, acc.2.2 + (c.up + c.down)))
        ((a, b, c) : ℕ × ℕ × ℕ) =
      (a + sumUp l, b + sumDown l, c + (sumUp l + sumDown l)) := by
  induction l generalizing a b c with
  | nil => simp [sumUp, sumDown]
  | cons x t ih =>
      simp only [List.foldl_cons, ih, sumUp, sumDown, List.map_cons,
        List.sum_cons, Prod.mk.injEq]
      omega

lemma price_guard_eq (p : ℚ) :
    (if p = 0 ∨ p ≤ 0 then fallbackPrice else p) =
      (if 0 < p then p else fallbackPrice) := by
  by_cases h : 0 < p
  · have h0 : ¬(p = 0 ∨ p ≤ 0) := by
      push_neg
      exact ⟨ne_of_gt h, h⟩
    simp only [if_pos h, if_neg h0]
  · have h0 : p = 0 ∨ p ≤ 0 := Or.inr (not_lt.mp h)
    simp only [if_neg h, if_pos h0]

/-- The `part_001` pipeline, decomposed into the component resolvers: the
direction comes from `resolveDirection` over the leading three entries,
the leverage from `resolveLeverage` over the trailing three entries with
that direction, the entry price from `resolvedPrice`, and the levels from
`computeLevels`. -/
lemma produce_eq (rawCounts : List (ℕ × ℕ × ℕ)) (fetchedPrice : Option ℚ) :
    produce rawCounts fetchedPrice =
      { signal := resolveDirection ((buildSummary rawCounts).take 3)
        entryPrice := resolvedPrice fetchedPrice
        targetPrice := (computeLevels (resolvedPrice fetchedPrice)
          (resolveDirection ((buildSummary rawCounts).take 3))
          (resolveLeverage (sliceLast3 (buildSummary rawCounts))
            (resolveDirection ((buildSummary rawCounts).take 3)))).1
        stopPrice := (computeLevels (resolvedPrice fetchedPrice)
          (resolveDirection ((buildSummary rawCounts).take 3))
          (resolveLeverage (sliceLast3 (buildSummary rawCounts))
            (resolveDirection ((buildSummary rawCounts).take 3)))).2
        leverage := resolveLeverage (sliceLast3 (buildSummary rawCounts))
          (resolveDirection ((buildSummary rawCounts).take 3)) } := by
  cases fetchedPrice with
  | none =>
      unfold produce resolveDirection resolveLeverage computeLevels resolvedPrice
      simp only [foldl_counts, Nat.zero_add, apply_ite (Nat.cast : ℕ → ℚ)]
      norm_num
  | some p =>
      unfold produce resolveDirection resolveLeverage computeLevels resolvedPrice
      simp only [foldl_counts, Nat.zero_add, apply_ite (Nat.cast : ℕ → ℚ),
        price_guard_eq]

lemma jsRound_int (n : ℤ) : jsRound (n : ℚ) = n := by
  unfold jsRound
  rw [Int.floor_int_add]
  norm_num

lemma jsRound_mono {x y : ℚ} (h : x ≤ y) : jsRound x ≤ jsRound y :=
  Int.floor_le_floor (by linarith)

lemma buildSummary_length (rawCounts : List (ℕ × ℕ × ℕ)) :
    (buildSummary rawCounts).length = 7 := by
  simp [buildSummary, timeframes]

/-- On the always-7-element summary, the trailing window is exactly the
last three (highest-timeframe) entries. -/
lemma sliceLast3_buildSummary (rawCounts : List (ℕ × ℕ × ℕ)) :
    sliceLast3 (buildSummary rawCounts) = (buildSummary rawCounts).drop 4 := by
  unfold sliceLast3
  rw [buildSummary_length]

/-- Aligned sum of a window for a direction: `up` for LONG, `down` for
SHORT. -/
def alignedSum (dir : Direction) (w : List IndicatorCount) : ℕ :=
  if dir = Direction.LONG then sumUp w else sumDown w

/-- Non-aligned sum of a window for a direction: the other side's count. -/
def nonAlignedSum (dir : Direction) (w : List IndicatorCount) : ℕ :=
  if dir = Direction.LONG then sumDown w else sumUp w

lemma resolveLeverage_counts (w : List IndicatorCount) (dir : Direction) :
    resolveLeverage w dir =
      max 30 (min 50 (jsRound (30 + 20 *
        (if 0 < alignedSum dir w + nonAlignedSum dir w then
          (alignedSum dir w : ℚ) /
            ((alignedSum dir w + nonAlignedSum dir w : ℕ) : ℚ)
        else 0)))) := by
  cases dir with
  | LONG => simp [resolveLeverage, alignedSum, nonAlignedSum]
  | SHORT => simp [resolveLeverage, alignedSum, nonAlignedSum, Nat.add_comm]

lemma ratioQ_mono (a a' b : ℕ) (h : a ≤ a') :
    (if 0 < a + b then (a : ℚ) / ((a + b : ℕ) : ℚ) else 0) ≤
      (if 0 < a' + b then (a' : ℚ) / ((a' + b : ℕ) : ℚ) else 0) := by
  by_cases h1 : 0 < a + b
  · have h2 : 0 < a' + b := by omega
    rw [if_pos h1, if_pos h2]
    have d1 : (0 : ℚ) < ((a + b : ℕ) : ℚ) := by exact_mod_cast h1
    have d2 : (0 : ℚ) < ((a' + b : ℕ) : ℚ) := by exact_mod_cast h2
    rw [div_le_div_iff₀ d1 d2]
    push_cast
    nlinarith [mul_le_mul_of_nonneg_right
      (show (a : ℚ) ≤ (a' : ℚ) by exact_mod_cast h)
      (show (0 : ℚ) ≤ (b : ℚ) by positivity)]
  · rw [if_neg h1]
    by_cases h2 : 0 < a' + b
    · rw [if_pos h2]
      positivity
    · rw [if_neg h2]

lemma clampRound_mono {x y : ℚ} (h : x ≤ y) :
    max 30 (min 50 (jsRound (30 + 20 * x))) ≤
      max 30 (min 50 (jsRound (30 + 20 * y))) := by
  have hj : jsRound (30 + 20 * x) ≤ jsRound (30 + 20 * y) :=
    jsRound_mono (by linarith)
  omega

/-! ### Concrete evaluations shared by the C1 theorems -/

lemma raw7_direction :
    resolveDirection ((buildSummary (List.replicate 7 (6, 6, 0))).take 3) =
      Direction.SHORT := by
  decide

lemma raw7_leverage :
    resolveLeverage (sliceLast3 (buildSummary (List.replicate 7 (6, 6, 0))))
      Direction.SHORT = 40 := by
  have h1 : sumUp (sliceLast3 (buildSummary (List.replicate 7 (6, 6, 0)))) = 18 := by
    decide
  have h2 : sumDown (sliceLast3 (buildSummary (List.replicate 7 (6, 6, 0)))) = 18 := by
    decide
  unfold resolveLeverage
  rw [h1, h2]
  norm_num [jsRound]

lemma levels_119500_SHORT_40 :
    computeLevels 119500 Direction.SHORT 40 = (117469, 119948) := by
  unfold computeLevels
  rw [if_neg (show ¬(Direction.SHORT = Direction.LONG) by decide)]
  norm_num [jsRound]

lemma resolvedPrice_119500 : resolvedPrice (some 119500) = 119500 := by
  norm_num [resolvedPrice]

/-! ### Claims -/

/-- C1 (counterexample): with raw counts `(6,6,0) ×7` and spot price
119500, the `better-scalp` pipeline does NOT return the Directive the
claim states (`leverage 30`, `stop round(119500×1.005)`): the trailing
window has 18 up and 18 down, so the consensus ratio is 1/2 and the
leverage is 40, not 30. -/
theorem C1_claimed_directive_counterexample :
    produce (List.replicate 7 (6, 6, 0)) (some 119500) ≠
      { signal := Direction.SHORT
        entryPrice := 119500
        targetPrice := jsRound (119500 * (983/1000))
        stopPrice := jsRound (119500 * (1005/1000))
        leverage := 30 } := by
  intro h
  have h1 : (produce (List.replicate 7 (6, 6, 0)) (some 119500)).leverage = 40 := by
    rw [produce_eq]
    simp only [raw7_direction]
    exact raw7_leverage
  rw [h] at h1
  exact absurd h1 (by decide)

/-- C1 (amended): with raw counts `(6,6,0) ×7` and spot price 119500,
both pipeline variants return exactly
`{direction SHORT, leverage 40, entry 119500,
target round(119500×0.983) = 117469,
stop round(119500×(1+0.15/40)) = 119948}`. -/
theorem C1_tied_counts_directive :
    produce (List.replicate 7 (6, 6, 0)) (some 119500) =
      { signal := Direction.SHORT
        entryPrice := 119500
        targetPrice := 117469
        stopPrice := 119948
        leverage := 40 } ∧
    produceOverall (List.replicate 7 (6, 6, 0)) (some 119500) =
      { signal := Direction.SHORT
        entryPrice := 119500
        targetPrice := 117469
        stopPrice := 119948
        leverage := 40 } := by
  constructor
  · rw [produce_eq, raw7_direction, resolvedPrice_119500, raw7_leverage,
      levels_119500_SHORT_40]
  · have h1 : sumUp (buildSummary (List.replicate 7 (6, 6, 0))) = 42 := by decide
    have h2 : sumDown (buildSummary (List.replicate 7 (6, 6, 0))) = 42 := by decide
    have h3 : sumUp (sliceLast3 (buildSummary (List.replicate 7 (6, 6, 0)))) = 18 := by
      decide
    have h4 : sumDown (sliceLast3 (buildSummary (List.replicate 7 (6, 6, 0)))) = 18 := by
      decide
    unfold produceOverall
    simp only [foldl_counts, foldl_counts3, Nat.zero_add, h1, h2, h3, h4]
    norm_num [jsRound, Directive.mk.injEq]
    decide

/-- C2: for every input sequence of raw counts (and any price outcome),
the produced direction is `resolveDirection` over the leading window
(`take 3`: the first, lowest-timeframe entries) and the produced leverage
is `resolveLeverage` over the trailing window (`slice(-3)`, which on the
7-element series is the last three, highest-timeframe entries) using that
resolved direction. -/
theorem C2_pipeline_windows (rawCounts : List (ℕ × ℕ × ℕ))
    (fetchedPrice : Option ℚ) :
    (produce rawCounts fetchedPrice).signal =
        resolveDirection ((buildSummary rawCounts).take 3) ∧
    (produce rawCounts fetchedPrice).leverage =
        resolveLeverage (sliceLast3 (buildSummary rawCounts))
          ((produce rawCounts fetchedPrice).signal) ∧
    sliceLast3 (buildSummary rawCounts) = (buildSummary rawCounts).drop 4 := by
  refine ⟨?_, ?_, sliceLast3_buildSummary rawCounts⟩
  · rw [produce_eq]
  · rw [produce_eq]

/-- C3: the engine uses the fetched spot price as `entryPrice` exactly
when it is present and strictly positive; otherwise (absent, zero or
negative) it substitutes the static fallback price constant. -/
theorem C3_entry_price_guard (rawCounts : List (ℕ × ℕ × ℕ)) (p : ℚ) :
    ((produce rawCounts (some p)).entryPrice =
        if 0 < p then p else fallbackPrice) ∧
    (produce rawCounts none).entryPrice = fallbackPrice := by
  constructor
  · rw [produce_eq]
    rfl
  · rw [produce_eq]
    rfl

/-- C4: on any window whose up-sum equals its down-sum (the all-zero
window included), the direction resolver deterministically returns
SHORT. -/
theorem C4_tie_short (w : List IndicatorCount) (h : sumUp w = sumDown w) :
    resolveDirection w = Direction.SHORT := by
  unfold resolveDirection
  rw [h]
  simp

theorem C4_tie_short_witness :
    sumUp [({ timeframe := "5m", up := 2, down := 2, neutral := 1 } :
        IndicatorCount)] =
      sumDown [({ timeframe := "5m", up := 2, down := 2, neutral := 1 } :
        IndicatorCount)] ∧
    resolveDirection [({ timeframe := "5m", up := 2, down := 2, neutral := 1 } :
        IndicatorCount)] = Direction.SHORT :=
  ⟨by decide, C4_tie_short _ (by decide)⟩

/-- Transcription of the spec's §4.3 clamp, for the refinement comparison
of C5: `round(30 + 20 × ratio)` clamped to the inclusive range `[30, 50]`
written as `min hi (max lo x)`. -/
def clampI (lo hi x : ℤ) : ℤ := min hi (max lo x)

/-- Transcription of the spec's §4.3 consensus ratio, for the refinement
comparison of C5: `aligned / highTotal` if `highTotal > 0`, else `0`,
with `aligned` the up sum for LONG and the down sum for SHORT. -/
def specConsensusRatio (w : List IndicatorCount) (dir : Direction) : ℚ :=
  if 0 < sumUp w + sumDown w then
    (if dir = Direction.LONG then (sumUp w : ℚ) else (sumDown w : ℚ)) /
      ((sumUp w + sumDown w : ℕ) : ℚ)
  else 0

/-- Transcription of the spec's §4.3 leverage formula, for the refinement
comparison of C5. -/
def specLeverage (w : List IndicatorCount) (dir : Direction) : ℤ :=
  clampI 30 50 (jsRound (30 + 20 * specConsensusRatio w dir))

/-- C5: for every trailing window and direction, the code's leverage is
exactly the spec's `round(30 + 20 × consensusRatio)` clamped to
`[30, 50]`, and a window with zero up/down signals yields leverage
exactly 30. -/
theorem C5_leverage_formula (w : List IndicatorCount) (dir : Direction) :
    resolveLeverage w dir = specLeverage w dir ∧
    (sumUp w + sumDown w = 0 → resolveLeverage w dir = 30) := by
  constructor
  · unfold resolveLeverage specLeverage clampI specConsensusRatio
    simp only [apply_ite (Nat.cast : ℕ → ℚ), gt_iff_lt]
    omega
  · intro h0
    unfold resolveLeverage
    rw [h0]
    norm_num [jsRound]

theorem C5_leverage_formula_witness :
    resolveLeverage [] Direction.LONG = specLeverage [] Direction.LONG ∧
    resolveLeverage [] Direction.LONG = 30 :=
  ⟨(C5_leverage_formula [] Direction.LONG).1,
   (C5_leverage_formula [] Direction.LONG).2 rfl⟩

/-- C6: for every window of non-negative counts and either direction,
the leverage is an integer in the inclusive range `[30, 50]`. -/
theorem C6_leverage_bounds (w : List IndicatorCount) (dir : Direction) :
    30 ≤ resolveLeverage w dir ∧ resolveLeverage w dir ≤ 50 := by
  simp only [resolveLeverage]
  omega

/-- C7: holding the direction and the non-aligned count of the trailing
window fixed, increasing the aligned count never decreases the computed
leverage. -/
theorem C7_leverage_monotone (dir : Direction) (w w' : List IndicatorCount)
    (hal : alignedSum dir w ≤ alignedSum dir w')
    (hna : nonAlignedSum dir w = nonAlignedSum dir w') :
    resolveLeverage w dir ≤ resolveLeverage w' dir := by
  rw [resolveLeverage_counts, resolveLeverage_counts, hna]
  exact clampRound_mono
    (ratioQ_mono (alignedSum dir w) (alignedSum dir w') (nonAlignedSum dir w') hal)

theorem C7_leverage_monotone_witness :
    alignedSum Direction.LONG
        [({ timeframe := "4h", up := 1, down := 1, neutral := 0 } : IndicatorCount)] ≤
      alignedSum Direction.LONG
        [({ timeframe := "4h", up := 3, down := 1, neutral := 0 } : IndicatorCount)] ∧
    nonAlignedSum Direction.LONG
        [({ timeframe := "4h", up := 1, down := 1, neutral := 0 } : IndicatorCount)] =
      nonAlignedSum Direction.LONG
        [({ timeframe := "4h", up := 3, down := 1, neutral := 0 } : IndicatorCount)] ∧
    resolveLeverage
        [({ timeframe := "4h", up := 1, down := 1, neutral := 0 } : IndicatorCount)]
        Direction.LONG ≤
      resolveLeverage
        [({ timeframe := "4h", up := 3, down := 1, neutral := 0 } : IndicatorCount)]
        Direction.LONG :=
  ⟨by decide, by decide,
   C7_leverage_monotone Direction.LONG _ _ (by decide) (by decide)⟩

/-- C8: the price-level calculator returns
`(101700, 99500)` for `(100000, LONG, 30)` and `(98300, 100300)` for
`(100000, SHORT, 50)`, and in general the target is
`round(entry × (1 ± 0.017))` and the stop `round(entry × (1 ∓ 0.15/lev))`
(half-up rounding). -/
theorem C8_price_levels :
    computeLevels 100000 Direction.LONG 30 = (101700, 99500) ∧
    computeLevels 100000 Direction.SHORT 50 = (98300, 100300) ∧
    (∀ (e : ℚ) (l : ℤ),
      computeLevels e Direction.LONG l =
        (jsRound (e * (1017/1000)), jsRound (e * (1 - (3/20) / (l : ℚ)))) ∧
      computeLevels e Direction.SHORT l =
        (jsRound (e * (983/1000)), jsRound (e * (1 + (3/20) / (l : ℚ))))) := by
  refine ⟨?_, ?_, fun e l => ⟨?_, ?_⟩⟩
  · unfold computeLevels
    rw [if_pos rfl]
    norm_num [jsRound]
  · unfold computeLevels
    rw [if_neg (show ¬(Direction.SHORT = Direction.LONG) by decide)]
    norm_num [jsRound]
  · unfold computeLevels
    rw [if_pos rfl]
    refine Prod.ext ?_ ?_ <;> simp only [] <;> congr 1 <;> ring
  · unfold computeLevels
    rw [if_neg (show ¬(Direction.SHORT = Direction.LONG) by decide)]
    refine Prod.ext ?_ ?_ <;> simp only [] <;> congr 1 <;> ring

/-- C9: the handler is total: every outcome of the two fetches yields an
HTTP-200 response carrying a Directive, and when the series cannot be
constructed at all (the try block throws before the summary exists) the
body is exactly the static fallback Directive
`{LONG, 119500, 121500, 119200, 30}`. -/
theorem C9_total_fallback (taResult : Option (List (ℕ × ℕ × ℕ)))
    (priceResult : Option ℚ) :
    (handler taResult priceResult).status = 200 ∧
    (taResult = none →
      (handler taResult priceResult).body = fallbackDirective) := by
  cases taResult <;> simp [handler]

theorem C9_total_fallback_witness :
    (handler none none).status = 200 ∧
    (handler none none).body = fallbackDirective :=
  ⟨(C9_total_fallback none none).1, (C9_total_fallback none none).2 rfl⟩

/-- C10: for a positive integer entry price and leverage in `[30, 50]`,
the computed levels bracket the entry: stop ≤ entry ≤ target for LONG and
target ≤ entry ≤ stop for SHORT. -/
theorem C10_level_ordering (e : ℕ) (lev : ℤ) (he : 0 < e)
    (h30 : 30 ≤ lev) (h50 : lev ≤ 50) :
    ((computeLevels (e : ℚ) Direction.LONG lev).2 ≤ (e : ℤ) ∧
      (e : ℤ) ≤ (computeLevels (e : ℚ) Direction.LONG lev).1) ∧
    ((computeLevels (e : ℚ) Direction.SHORT lev).1 ≤ (e : ℤ) ∧
      (e : ℤ) ≤ (computeLevels (e : ℚ) Direction.SHORT lev).2) := by
  have hlev : (0 : ℚ) < (lev : ℚ) := by
    exact_mod_cast lt_of_lt_of_le (by norm_num : (0 : ℤ) < 30) h30
  have ht : (0 : ℚ) ≤ (15/100) / (lev : ℚ) := by positivity
  have he' : (0 : ℚ) ≤ (e : ℚ) := by positivity
  have heq : jsRound ((e : ℕ) : ℚ) = (e : ℤ) := by
    rw [show ((e : ℕ) : ℚ) = ((e : ℤ) : ℚ) by push_cast; ring]
    exact jsRound_int _
  have hL : computeLevels (e : ℚ) Direction.LONG lev =
      (jsRound ((e : ℚ) * (1 + 17/1000)),
       jsRound ((e : ℚ) * (1 - (15/100) / (lev : ℚ)))) := by
    unfold computeLevels
    rw [if_pos rfl]
  have hS : computeLevels (e : ℚ) Direction.SHORT lev =
      (jsRound ((e : ℚ) * (1 - 17/1000)),
       jsRound ((e : ℚ) * (1 + (15/100) / (lev : ℚ)))) := by
    unfold computeLevels
    rw [if_neg (show ¬(Direction.SHORT = Direction.LONG) by decide)]
  rw [hL, hS]
  refine ⟨⟨?_, ?_⟩, ?_, ?_⟩
  · calc jsRound ((e : ℚ) * (1 - (15/100) / (lev : ℚ))) ≤ jsRound ((e : ℕ) : ℚ) :=
          jsRound_mono (by nlinarith [mul_nonneg he' ht])
      _ = (e : ℤ) := heq
  · calc (e : ℤ) = jsRound ((e : ℕ) : ℚ) := heq.symm
      _ ≤ jsRound ((e : ℚ) * (1 + 17/1000)) := jsRound_mono (by nlinarith)
  · calc jsRound ((e : ℚ) * (1 - 17/1000)) ≤ jsRound ((e : ℕ) : ℚ) :=
          jsRound_mono (by nlinarith)
      _ = (e : ℤ) := heq
  · calc (e : ℤ) = jsRound ((e : ℕ) : ℚ) := heq.symm
      _ ≤ jsRound ((e : ℚ) * (1 + (15/100) / (lev : ℚ))) :=
          jsRound_mono (by nlinarith [mul_nonneg he' ht])

theorem C10_level_ordering_witness :
    (0 : ℕ) < 100000 ∧ (30 : ℤ) ≤ 30 ∧ (30 : ℤ) ≤ 50 ∧
    (((computeLevels ((100000 : ℕ) : ℚ) Direction.LONG 30).2 ≤ ((100000 : ℕ) : ℤ) ∧
      ((100000 : ℕ) : ℤ) ≤ (computeLevels ((100000 : ℕ) : ℚ) Direction.LONG 30).1) ∧
    ((computeLevels ((100000 : ℕ) : ℚ) Direction.SHORT 30).1 ≤ ((100000 : ℕ) : ℤ) ∧
      ((100000 : ℕ) : ℤ) ≤ (computeLevels ((100000 : ℕ) : ℚ) Direction.SHORT 30).2)) :=
  ⟨by norm_num, by norm_num, by norm_num,
   C10_level_ordering 100000 30 (by norm_num) (by norm_num) (by norm_num)⟩

end Braincast
